import Mathlib

/-!
Shallow embedding of the testbot device power-and-flash orchestration engine
(`lib/devices.ts`): the `DeviceInteractor` hierarchy, its flashing entry
points, the flasher-family debounced completion wait, the Intel NUC
current-draw completion wait, the BalenaFin compute-module retry loop, and
the Jetson TX2 pre-flash power-off wait.

Hardware-driver calls are represented as elements of an operation trace;
shell-command (`exec`) outcomes and power/current probe readings are inputs
to the embedded functions (streams indexed by sample number).  Machine time
advances only at the explicit `delay`/timer suspend points of the source,
which is what the sample indices count.
-/

/-- A primitive operation issued to the hardware driver (`TestBot`). -/
inductive TBOp where
  | setVout (volts : ℚ)
  | powerOnDUT
  | powerOffDUT
  | switchSdToDUT (settleMs : Nat)
  | switchSdToHost (settleMs : Nat)
  | closeDutSerial
  | flashSd (path : String)
  | flashToDisk (path : String)
  deriving DecidableEq, Repr

/-! ### `DeviceInteractor.flashFromFile` / `DeviceInteractor.flash`

`flashFromFile(filePath)` throws `'zip files are not supported'` when the
path ends in `.zip`, and otherwise calls `this.flash(filePath)` (which the
variants override).  A variant's `flash` implementation is modelled as a
function from the file path to the trace of driver operations it performs
together with its outcome.  The base `DeviceInteractor.flash` simply calls
`testBot.flash(filePath)` with no format check of its own. -/

/-- JS `s.endsWith(suffix)`, embedded on the character lists of the strings. -/
def strEndsWith (s suffix : String) : Bool :=
  List.isSuffixOf suffix.data s.data

/-- Embeds the base `DeviceInteractor.flash`: `await this.testBot.flash(filePath)`.
Returns the driver-operation trace and the outcome. -/
def baseFlash (filePath : String) : List TBOp × Except String Unit :=
  ([TBOp.flashSd filePath], Except.ok ())

/-- Embeds `DeviceInteractor.flashFromFile`, parameterized by the variant's
`flash` implementation (the dynamic dispatch target of `this.flash`).
The `.zip` check happens before any driver operation. -/
def flashFromFile (flashImpl : String → List TBOp × Except String Unit)
    (filePath : String) : List TBOp × Except String Unit :=
  if strEndsWith filePath ".zip" then
    ([], Except.error "zip files are not supported")
  else
    flashImpl filePath

/-! ### `Imx8mmVarDartNRT.checkDutPower`

Source: `if (outCurrent > 0.03 && outCurrent < 50) { ... return true } else
{ ... return false }`.  Currents are embedded as exact rationals. -/

/-- Embeds `Imx8mmVarDartNRT.checkDutPower` as a function of the current
reading returned by `readVoutAmperage()`. -/
def imxCheckDutPower (outCurrent : ℚ) : Bool :=
  if 3 / 100 < outCurrent ∧ outCurrent < 50 then true else false

/-! ### Shell probes: `FlasherDeviceInteractor.checkDutPower` and
`BalenaFin.toggleUsb`

`checkDutPower` awaits `exec('cat /sys/class/net/eth1/carrier')` with no
`try`/`catch` and no `.catch`, so a rejected exec propagates out of the
method.  `toggleUsb` attaches `.catch(() => console.log(...))` to its exec,
so a rejection is swallowed and the method returns normally.  An exec
outcome is embedded as `Except String String` (error, or captured stdout). -/

/-- Embeds `FlasherDeviceInteractor.checkDutPower` as a function of the
exec outcome.  The source has no catch: a rejected exec propagates; on
success the result is whether stdout contains the character `1`
(`file.includes('1')`). -/
def flasherCheckDutPower (execResult : Except String String) : Except String Bool :=
  match execResult with
  | Except.error e => Except.error e
  | Except.ok stdout => Except.ok (stdout.contains '1')

/-- Embeds `BalenaFin.toggleUsb` as a function of the exec outcome of the
`uhubctl` command: the trailing `.catch` swallows any rejection, so the
method always returns normally. -/
def toggleUsb (execResult : Except String Unit) : Except String Unit :=
  match execResult with
  | Except.error _ => Except.ok ()
  | Except.ok _ => Except.ok ()

/-! ### Device variant catalog and `powerVoltage`

Every concrete class passes its voltage to `super(testBot, v)`; the field
is declared `readonly` and no statement in the source assigns to it after
construction, so in the embedding `powerVoltage` is a pure function of the
variant — constancy after construction holds by construction of the model.
`BalenaFinV09`, `RevPiCore3` and `RevPiConnect` inherit the `BalenaFin`
constructor (12 V). -/

/-- The concrete device variants of `lib/devices.ts`. -/
inductive DeviceVariant where
  | raspberryPi
  | rtRpi300
  | rpi3Neuron
  | rpi4Neuron
  | jetsonNano
  | cm4IOBoard
  | rockPro64
  | beagleBone
  | imx8mmebcrs08a2
  | rockpi4bRk3399
  | coralDevBoard
  | imx8mmVarDartNRT
  | jetsonTX2
  | balenaFin
  | balenaFinV09
  | revPiCore3
  | revPiConnect
  | rpi243390
  | intelNuc
  deriving DecidableEq, Repr

/-- The `powerVoltage` each constructor passes to `super(testBot, v)` (volts). -/
def powerVoltage : DeviceVariant → Nat
  | DeviceVariant.raspberryPi => 5
  | DeviceVariant.rtRpi300 => 12
  | DeviceVariant.rpi3Neuron => 24
  | DeviceVariant.rpi4Neuron => 24
  | DeviceVariant.jetsonNano => 5
  | DeviceVariant.cm4IOBoard => 12
  | DeviceVariant.rockPro64 => 12
  | DeviceVariant.beagleBone => 5
  | DeviceVariant.imx8mmebcrs08a2 => 12
  | DeviceVariant.rockpi4bRk3399 => 12
  | DeviceVariant.coralDevBoard => 5
  | DeviceVariant.imx8mmVarDartNRT => 5
  | DeviceVariant.jetsonTX2 => 5
  | DeviceVariant.balenaFin => 12
  | DeviceVariant.balenaFinV09 => 12
  | DeviceVariant.revPiCore3 => 12
  | DeviceVariant.revPiConnect => 12
  | DeviceVariant.rpi243390 => 5
  | DeviceVariant.intelNuc => 12

/-- The SD-boot (basic, direct external-media) family of the catalog. -/
def isSdBoot : DeviceVariant → Bool
  | DeviceVariant.raspberryPi => true
  | DeviceVariant.rtRpi300 => true
  | DeviceVariant.rpi3Neuron => true
  | DeviceVariant.rpi4Neuron => true
  | DeviceVariant.jetsonNano => true
  | DeviceVariant.cm4IOBoard => true
  | DeviceVariant.rockPro64 => true
  | DeviceVariant.rpi243390 => true
  | _ => false

/-- The flasher (media-boot, `FlasherDeviceInteractor`) family of the catalog. -/
def isFlasherFamily : DeviceVariant → Bool
  | DeviceVariant.beagleBone => true
  | DeviceVariant.imx8mmebcrs08a2 => true
  | DeviceVariant.rockpi4bRk3399 => true
  | DeviceVariant.coralDevBoard => true
  | DeviceVariant.imx8mmVarDartNRT => true
  | DeviceVariant.jetsonTX2 => true
  | _ => false

/-- The compute-module (BalenaFin) family of the catalog. -/
def isComputeModule : DeviceVariant → Bool
  | DeviceVariant.balenaFin => true
  | DeviceVariant.balenaFinV09 => true
  | DeviceVariant.revPiCore3 => true
  | DeviceVariant.revPiConnect => true
  | _ => false

/-- All variants of the catalog, for exhaustive checks. -/
def allVariants : List DeviceVariant :=
  [DeviceVariant.raspberryPi, DeviceVariant.rtRpi300, DeviceVariant.rpi3Neuron,
   DeviceVariant.rpi4Neuron, DeviceVariant.jetsonNano, DeviceVariant.cm4IOBoard,
   DeviceVariant.rockPro64, DeviceVariant.beagleBone, DeviceVariant.imx8mmebcrs08a2,
   DeviceVariant.rockpi4bRk3399, DeviceVariant.coralDevBoard,
   DeviceVariant.imx8mmVarDartNRT, DeviceVariant.jetsonTX2, DeviceVariant.balenaFin,
   DeviceVariant.balenaFinV09, DeviceVariant.revPiCore3, DeviceVariant.revPiConnect,
   DeviceVariant.rpi243390, DeviceVariant.intelNuc]

/-- `powerVoltage` requirement documented in the catalog table (per family):
RaspberryPi 5 V, Intel NUC 12 V, BalenaFin family 12 V, Jetson TX2 5 V, the
current-window variant 5 V, SD-boot models within 5–24 V, flasher models
within 5–12 V.  This definition follows the spec's table, to be compared
with `powerVoltage` read off the constructors. -/
def specVoltageTable (v : DeviceVariant) : Bool :=
  (v ≠ DeviceVariant.raspberryPi ∨ powerVoltage v = 5) ∧
  (v ≠ DeviceVariant.intelNuc ∨ powerVoltage v = 12) ∧
  (isComputeModule v = false ∨ powerVoltage v = 12) ∧
  (v ≠ DeviceVariant.jetsonTX2 ∨ powerVoltage v = 5) ∧
  (v ≠ DeviceVariant.imx8mmVarDartNRT ∨ powerVoltage v = 5) ∧
  (isSdBoot v = false ∨ (5 ≤ powerVoltage v ∧ powerVoltage v ≤ 24)) ∧
  (isFlasherFamily v = false ∨ (5 ≤ powerVoltage v ∧ powerVoltage v ≤ 12))

/-! ### `FlasherDeviceInteractor.waitInternalFlash`

Power readings are embedded as a stream `samples : Nat → Bool`, indexed by
the order in which `checkDutPower()` is called.  The method first polls
every 5 s until a sample reads on (unbounded), waits 60 s, then polls every
10 s until a debounce-confirmed off (unbounded).  Both unbounded `while`
loops are embedded with a fuel parameter: `none` means the loop is still
running after `fuel` iterations (the real loop never times out on its own). -/

/-- Polling constants of the source: `POLL_INTERVAL = 1000` (1 second). -/
def POLL_INTERVAL : Nat := 1000

/-- Polling constants of the source: `POLL_TRIES = 20`. -/
def POLL_TRIES : Nat := 20

/-- State of the debounce `for` loop after `n` of its iterations, starting
from `dutOn = false`, `offCount = 0` (the state on entry, since the window
is only entered after an off sample): the pair `(dutOn, offCount)`.
Iteration `t` runs `dutOn = samples (start + t); if (!dutOn) offCount += 1`. -/
def debounceFold (samples : Nat → Bool) (start : Nat) : Nat → Bool × Nat
  | 0 => (false, 0)
  | n + 1 =>
    let acc := debounceFold samples start n
    let d := samples (start + n)
    (d, if d then acc.2 else acc.2 + 1)

/-- One iteration of the outer `while (dutOn)` wait-for-off loop, with the
next `checkDutPower()` sample at index `i`: sample; if off, run the
`POLL_TRIES`-sample debounce window and set `dutOn` back to `true` unless
`offCount === POLL_TRIES`.  Returns the new `dutOn` and the next unread
sample index. -/
def outerIterate (samples : Nat → Bool) (i : Nat) : Bool × Nat :=
  let dutOn := samples i
  if dutOn = false then
    let w := debounceFold samples (i + 1) POLL_TRIES
    (if w.2 ≠ POLL_TRIES then true else w.1, i + 1 + POLL_TRIES)
  else
    (dutOn, i + 1)

/-- The outer `while (dutOn)` loop, fuel-bounded: returns `some (dutOn, i)`
with the loop-exit value of `dutOn` and the next unread sample index, or
`none` if the loop is still running after `fuel` iterations. -/
def waitOffLoop (samples : Nat → Bool) : Nat → Nat → Bool → Option (Bool × Nat)
  | _, i, false => some (false, i)
  | 0, _, true => none
  | fuel + 1, i, true =>
    let s := outerIterate samples i
    waitOffLoop samples fuel s.2 s.1

/-- The initial `while (!dutOn)` wait-for-on loop, fuel-bounded: body is
`dutOn = checkDutPower(); delay 5s`.  Returns the next unread sample index
on exit, `none` if still running after `fuel` iterations. -/
def waitOnLoop (samples : Nat → Bool) : Nat → Nat → Bool → Option Nat
  | _, i, true => some i
  | 0, _, false => none
  | fuel + 1, i, false => waitOnLoop samples fuel (i + 1) (samples i)

/-- Embeds `FlasherDeviceInteractor.waitInternalFlash` from the point where
the flasher image has booted: wait for on, 60 s grace, wait for
debounce-confirmed off, then `if (dutOn) throw else { powerOffDUT;
switchSdToHost(1000) }`.  `none` = still suspended in an unbounded loop. -/
def waitInternalFlash (samples : Nat → Bool) (fuel : Nat) :
    Option (Except String (List TBOp)) :=
  match waitOnLoop samples fuel 0 false with
  | none => none
  | some i =>
    match waitOffLoop samples fuel i true with
    | none => none
    | some s =>
      if s.1 then
        some (Except.error "Timed out while waiting for DUT to flash")
      else
        some (Except.ok [TBOp.powerOffDUT, TBOp.switchSdToHost 1000])

/-! ### `IntelNuc.powerOn`

Current readings are embedded as `readings : Nat → ℚ` (exact rationals),
indexed by the order of `readVoutAmperage()` calls.  Timeline of the
source: 5 s delay, reading 0, `timedOut = 0`, `setTimeout(..., 360000)`
(call this instant t = 0); then each loop iteration waits 5 s and takes the
next reading, so after reading `i` the elapsed time is `5000 * i` and the
6-minute timer callback has run exactly when `360000 ≤ 5000 * i`.  At the
tie `i = 72` both the 6-minute timer and the 5-second delay expire at
t = 360000; timer callbacks with the same expiry run in registration order,
so the 6-minute callback (registered first) sets `timedOut = 1` before the
loop resumes. -/

/-- Whether the 6-minute `setTimeout` callback has run by the time the loop
condition is re-checked after sampling reading `i`. -/
def nucTimedOut (i : Nat) : Bool := decide (360000 ≤ 5000 * i)

/-- The `while (current > 0.1 && timedOut === 0)` loop: from last-sampled
reading index `i`, returns the index of the reading the loop exits with.
`fuel = 73` always suffices from `i = 0` since `nucTimedOut 72 = true`. -/
def nucLoop (readings : Nat → ℚ) : Nat → Nat → Nat
  | 0, i => i
  | fuel + 1, i =>
    if 1 / 10 < readings i ∧ nucTimedOut i = false then
      nucLoop readings fuel (i + 1)
    else
      i

/-- The driver operations of `IntelNuc.powerOn` before the wait loop. -/
def nucPreOps : List TBOp :=
  [TBOp.powerOffDUT, TBOp.setVout 12, TBOp.switchSdToDUT 5000, TBOp.powerOnDUT]

/-- The driver operations of `IntelNuc.powerOn` on the success branch. -/
def nucPostOps : List TBOp :=
  [TBOp.powerOffDUT, TBOp.switchSdToHost 1000, TBOp.powerOnDUT]

/-- Embeds `IntelNuc.powerOn`: pre-loop driver calls, the current-draw wait
loop, then `if (timedOut === 1) throw else { powerOffDUT;
switchSdToHost(1000); powerOnDUT }`.  Returns the full operation trace or
the raised error. -/
def intelNucPowerOn (readings : Nat → ℚ) : Except String (List TBOp) :=
  let j := nucLoop readings 73 0
  if nucTimedOut j then
    Except.error "Timed out while waiting for DUT to flash"
  else
    Except.ok (nucPreOps ++ nucPostOps)

/-! ### `BalenaFin.flash` — compute-module USB-boot retry loop

Each attempt, after the USB power cycling and the two unbounded awaits
(usbboot attach, then detach), races a 5-minute `setTimeout` against the
attach of a block device described as `'Compute Module'`.  The attach
events visible during attempt `t` are embedded as a time-ordered list
`events t` of `(time in ms since the race started, isBlockDevice,
description)`; the promise resolves with the first matching event that
occurs strictly before the 300000 ms timeout, and otherwise the timeout
rejection is caught (`.catch`), leaving `dest = undefined`. -/

/-- A USB attach event during the block-device re-attach race: time since
the race started (ms), whether the drive is a `BlockDevice`, and its
description. -/
structure AttachEvent where
  time : Nat
  isBlockDevice : Bool
  description : String
  deriving DecidableEq, Repr

/-- Embeds the 5-minute-bounded wait for the compute module to reattach as
a block device: the first event that is a block device described
`'Compute Module'` and occurs before the 300000 ms timeout, if any. -/
def awaitReattach (events : List AttachEvent) : Option AttachEvent :=
  events.find? (fun e =>
    e.time < 300000 ∧ e.isBlockDevice = true ∧ e.description = "Compute Module")

/-- Final state of `BalenaFin.flash`: how many loop iterations (attempts)
ran, whether `flashToDisk` ran, and the unconditional post-loop cleanup
(`toggleUsb(false, 4)`, `powerOffDUT()`). -/
structure FinState where
  attempts : Nat
  flashed : Bool
  usbOff : Bool
  poweredOff : Bool
  deriving DecidableEq, Repr

/-- The `while (tries < 3)` retry loop, as a recursion on the remaining
iterations `3 - tries`: if attempt `tries` sees a matching block device
(`dest instanceof Object`), flash and `break`; otherwise `tries++` and
retry.  Returns (number of attempts entered, flashed?). -/
def finFlashLoop (events : Nat → List AttachEvent) : Nat → Nat → Nat × Bool
  | 0, tries => (tries, false)
  | remaining + 1, tries =>
    match awaitReattach (events tries) with
    | some _ => (tries + 1, true)
    | none => finFlashLoop events remaining (tries + 1)

/-- Embeds `BalenaFin.flash`: the retry loop (at most 3 attempts), then
unconditionally `toggleUsb(false, 4)` and `powerOffDUT()`, returning
normally — the exec and scanner rejections reachable from the loop are all
caught in the source, and no error is thrown after exhaustion. -/
def finFlash (events : Nat → List AttachEvent) : Except String FinState :=
  let r := finFlashLoop events 3 0
  Except.ok { attempts := r.1, flashed := r.2, usbOff := true, poweredOff := true }

/-! ### `JetsonTX2.waitInternalFlash` — pre-flash power-off wait

Source:
`let retries = 10; let dutIsOn = await this.checkDutPower();`
`while (dutIsOn && --retries) { delay 10s; dutIsOn = check; if (10 === retries) throw ... }`
`--retries` decrements before testing truthiness (0 = falsy), and the body
compares the already-decremented counter with 10.  GPIO power samples are a
stream `samples : Nat → Bool`; sample 0 is the check before the loop. -/

/-- The TX2 pre-flash `while (dutIsOn && --retries)` loop from counter
value `retries`, next sample index `i`, current `dutIsOn`: `--retries` is
the step from pattern `retries + 1` to `retries`, and the loop body
compares the already-decremented counter with 10.  Returns `Except.ok`
with the next unread sample index when the loop exits, or the
`'Failed to power off the TX2 before flashing'` error if the throw runs.
(The `0` case — where JS would decrement to the truthy `-1` — is
unreachable from the entry value `10`, since the counter only decreases
and the loop exits when it reaches `0`.) -/
def tx2WaitOff (samples : Nat → Bool) : Nat → Nat → Bool → Except String Nat
  | 0, i, _ => Except.ok i
  | retries + 1, i, dutIsOn =>
    if dutIsOn ∧ retries ≠ 0 then
      let d := samples i
      if retries = 10 then
        Except.error "Failed to power off the TX2 before flashing"
      else
        tx2WaitOff samples retries (i + 1) d
    else
      Except.ok i

/-- Embeds the pre-flash power-off wait of `JetsonTX2.waitInternalFlash`:
`retries` starts at 10 and sample 0 is read before the loop.  On `Except.ok
n`, the loop performed `n - 1` ten-second rechecks and the method proceeds
to boot the flasher image. -/
def tx2PreFlashWait (samples : Nat → Bool) : Except String Nat :=
  tx2WaitOff samples 10 1 (samples 0)

/-! ## Claim theorems -/

/-- C2 (counterexample): the claim says a failure of the shell command run
by `checkDutPower` is caught and never propagated, the state machine
retaining its previous boolean reading.  At the concrete exec failure
`'exec: cat failed'`, `FlasherDeviceInteractor.checkDutPower` returns no
boolean at all — the error itself is the result, i.e. the rejection
propagates to the caller. -/
theorem checkDutPower_error_propagates_cex :
    flasherCheckDutPower (Except.error "exec: cat failed") =
      Except.error "exec: cat failed"
    ∧ flasherCheckDutPower (Except.error "exec: cat failed") ≠ Except.ok true
    ∧ flasherCheckDutPower (Except.error "exec: cat failed") ≠ Except.ok false := by
  refine ⟨rfl, ?_, ?_⟩ <;> intro h <;> exact Except.noConfusion h

/-- C2 (amended): `BalenaFin.toggleUsb`'s shell-command failure is caught
(`.catch`) and the method returns normally, but a shell-command failure in
`FlasherDeviceInteractor.checkDutPower` is not caught: it propagates to the
caller as the error itself, so the state machine does not retain a previous
boolean reading there.  On exec success the probe returns whether stdout
contains `'1'`. -/
theorem shellProbe_error_handling (e : String) (out : String) :
    toggleUsb (Except.error e) = Except.ok ()
    ∧ flasherCheckDutPower (Except.error e) = Except.error e
    ∧ flasherCheckDutPower (Except.ok out) = Except.ok (out.contains '1') :=
  ⟨rfl, rfl, rfl⟩

/-- C6 (counterexample): the claim says `flash` called with a `.zip` path
also always fails with the unsupported-format error and no driver
operation.  But `DeviceInteractor.flash` has no format check: at the
concrete path `'image.zip'` it invokes the driver's flash operation and
returns normally. -/
theorem flash_zip_not_rejected_cex :
    baseFlash "image.zip" = ([TBOp.flashSd "image.zip"], Except.ok ())
    ∧ (baseFlash "image.zip").2 ≠ Except.error "zip files are not supported"
    ∧ (baseFlash "image.zip").1 ≠ [] := by
  refine ⟨rfl, ?_, ?_⟩ <;> intro h <;> simp [baseFlash] at h

/-- C6 (amended): `flashFromFile` called with a path ending in `.zip`
always fails with the unsupported-format error before any hardware-driver
operation, for every variant `flash` implementation; `flash` itself
performs no such check (a `.zip` path goes to the driver unchanged). -/
theorem flashFromFile_zip_always_rejected
    (flashImpl : String → List TBOp × Except String Unit) (filePath : String)
    (h : strEndsWith filePath ".zip" = true) :
    flashFromFile flashImpl filePath =
      ([], Except.error "zip files are not supported") := by
  simp [flashFromFile, h]

/-- C6 (witness): the amended theorem applied at `'image.zip'` and the base
`flash` implementation. -/
theorem flashFromFile_zip_always_rejected_w :
    flashFromFile baseFlash "image.zip" =
      ([], Except.error "zip files are not supported") :=
  flashFromFile_zip_always_rejected baseFlash "image.zip" (by decide)

/-- C7 (counterexample): the claim says the probe returns true exactly on
the window `[0.03, 50)`, so it would return `true` at a reading of exactly
`0.03 A`.  The source compares with strict `>`, so
`Imx8mmVarDartNRT.checkDutPower` returns `false` there: the claimed
biconditional fails at `r = 3/100`. -/
theorem imxCheckDutPower_boundary_cex :
    ¬ (imxCheckDutPower (3 / 100) = true ↔
        ((3 : ℚ) / 100 ≤ 3 / 100 ∧ (3 : ℚ) / 100 < 50)) := by
  intro h
  have : imxCheckDutPower (3 / 100) = true := h.mpr (by norm_num)
  norm_num [imxCheckDutPower] at this

/-- C7 (amended): the probe's window is open at both ends:
`Imx8mmVarDartNRT.checkDutPower` returns true iff the measured current lies
in `(0.03, 50)`, and in particular returns false for glitch readings such
as 80 A during power-off transients and at the boundary `0.03 A` itself. -/
theorem imxCheckDutPower_window_iff (r : ℚ) :
    (imxCheckDutPower r = true ↔ (3 / 100 < r ∧ r < 50))
    ∧ imxCheckDutPower 80 = false := by
  constructor
  · by_cases h : (3 / 100 < r ∧ r < 50) <;> simp [imxCheckDutPower, h]
  · norm_num [imxCheckDutPower]

/-- C8: for every variant in the catalog, `powerVoltage` equals the value
the constructor passes to `super` and satisfies the documented table
(RaspberryPi 5 V, Intel NUC 12 V, BalenaFin family 12 V, Jetson TX2 5 V,
the current-window variant 5 V, SD-boot models within 5–24 V, flasher
models within 5–12 V).  The field is `readonly` and never assigned after
construction, so the embedding makes it a pure function of the variant;
constancy over the object's lifetime holds by construction of the model. -/
theorem powerVoltage_catalog_table :
    (∀ v : DeviceVariant, v ∈ allVariants)
    ∧ allVariants.all specVoltageTable = true := by
  constructor
  · intro v
    cases v <;> decide
  · decide

/-! ## Debounce-window lemmas -/

/-- The debounce off-counter never exceeds the number of iterations run. -/
theorem debounceFold_snd_le (samples : Nat → Bool) (start : Nat) :
    ∀ n, (debounceFold samples start n).2 ≤ n := by
  intro n
  induction n with
  | zero => simp [debounceFold]
  | succ n ih =>
    simp only [debounceFold]
    by_cases h : samples (start + n) = true <;> simp [h] <;> omega

/-- The debounce off-counter reaches the window size exactly when every
sample in the window reads off. -/
theorem debounceFold_snd_eq_iff (samples : Nat → Bool) (start : Nat) :
    ∀ n, (debounceFold samples start n).2 = n ↔
      ∀ k < n, samples (start + k) = false := by
  intro n
  induction n with
  | zero => simp [debounceFold]
  | succ n ih =>
    simp only [debounceFold]
    by_cases h : samples (start + n) = true
    · simp only [h, if_true]
      constructor
      · intro hc
        have := debounceFold_snd_le samples start n
        omega
      · intro hall
        have := hall n (Nat.lt_succ_self n)
        rw [h] at this
        exact absurd this (by simp)
    · rw [Bool.not_eq_true] at h
      simp only [h, Bool.false_eq_true, if_false]
      constructor
      · intro hc
        have h2 : (debounceFold samples start n).2 = n := by omega
        intro k hk
        rcases Nat.lt_succ_iff_lt_or_eq.mp hk with hk' | hk'
        · exact (ih.mp h2) k hk'
        · rw [hk']; exact h
      · intro hall
        have h2 : (debounceFold samples start n).2 = n :=
          ih.mpr (fun k hk => hall k (Nat.lt_succ_of_lt hk))
        omega

/-- After a nonempty debounce window, the final `dutOn` is the last sample. -/
theorem debounceFold_fst (samples : Nat → Bool) (start n : Nat) :
    (debounceFold samples start (n + 1)).1 = samples (start + n) := rfl

/-- C1: in `FlasherDeviceInteractor.waitInternalFlash`, once the outer
10-second poll reads an off sample at index `i`, the iteration ends with
`dutOn = false` — and hence the wait loop terminates with `dutOn = false` —
exactly when all `POLL_TRIES = 20` consecutive 1-second debounce samples
read off; if any of the 20 reads on, `dutOn` is set back to `true` and the
outer poll resumes after the window. -/
theorem waitInternalFlash_debounce_iff (samples : Nat → Bool) (i fuel : Nat)
    (hoff : samples i = false) :
    ((outerIterate samples i).1 = false ↔
      ∀ k < POLL_TRIES, samples (i + 1 + k) = false)
    ∧ (outerIterate samples i).2 = i + 1 + POLL_TRIES
    ∧ ((outerIterate samples i).1 = false →
        waitOffLoop samples (fuel + 1) i true = some (false, i + 1 + POLL_TRIES))
    ∧ ((outerIterate samples i).1 = true →
        waitOffLoop samples (fuel + 1) i true =
          waitOffLoop samples fuel (i + 1 + POLL_TRIES) true) := by
  have hunfold : outerIterate samples i =
      (if (debounceFold samples (i + 1) POLL_TRIES).2 ≠ POLL_TRIES then true
       else (debounceFold samples (i + 1) POLL_TRIES).1, i + 1 + POLL_TRIES) := by
    simp [outerIterate, hoff]
  have hiff : (outerIterate samples i).1 = false ↔
      ∀ k < POLL_TRIES, samples (i + 1 + k) = false := by
    rw [hunfold]
    by_cases hc : (debounceFold samples (i + 1) POLL_TRIES).2 = POLL_TRIES
    · simp only [hc, ne_eq, not_true_eq_false, if_false]
      have hall := (debounceFold_snd_eq_iff samples (i + 1) POLL_TRIES).mp hc
      constructor
      · intro _
        exact hall
      · intro _
        have : (debounceFold samples (i + 1) (19 + 1)).1 = samples (i + 1 + 19) :=
          debounceFold_fst samples (i + 1) 19
        rw [show POLL_TRIES = 19 + 1 from rfl]
        rw [this]
        exact hall 19 (by norm_num [POLL_TRIES])
    · simp only [hc, ne_eq, not_false_eq_true, if_true]
      constructor
      · intro h
        exact absurd h (by simp)
      · intro hall
        exact absurd ((debounceFold_snd_eq_iff samples (i + 1) POLL_TRIES).mpr hall) hc
  refine ⟨hiff, by rw [hunfold], ?_, ?_⟩
  · intro hfalse
    show waitOffLoop samples (fuel + 1) i true = _
    rw [waitOffLoop]
    rcases hs : outerIterate samples i with ⟨d, j⟩
    rw [hs] at hfalse
    rw [hs] at hunfold
    simp only at hfalse
    have hj : j = i + 1 + POLL_TRIES := by
      have := congrArg Prod.snd hunfold
      simpa using this
    rw [hfalse, hj]
    rw [waitOffLoop]
  · intro htrue
    rw [waitOffLoop]
    rcases hs : outerIterate samples i with ⟨d, j⟩
    rw [hs] at htrue
    rw [hs] at hunfold
    simp only at htrue
    have hj : j = i + 1 + POLL_TRIES := by
      have := congrArg Prod.snd hunfold
      simpa using this
    rw [htrue, hj]

/-- C1 (witness): with every sample off, the iteration entered at an off
poll sample confirms off. -/
theorem waitInternalFlash_debounce_iff_w :
    (outerIterate (fun _ => false) 0).1 = false :=
  (waitInternalFlash_debounce_iff (fun _ => false) 0 0 rfl).1.mpr (fun _ _ => rfl)

/-- The wait-for-off loop only ever exits with `dutOn = false`. -/
theorem waitOffLoop_exit_false (samples : Nat → Bool) :
    ∀ fuel i d0 d j, waitOffLoop samples fuel i d0 = some (d, j) → d = false := by
  intro fuel
  induction fuel with
  | zero =>
    intro i d0 d j h
    cases d0 with
    | false =>
      rw [waitOffLoop] at h
      injection h with h'
      exact (congrArg Prod.fst h').symm
    | true => rw [waitOffLoop] at h; exact Option.noConfusion h
  | succ fuel ih =>
    intro i d0 d j h
    cases d0 with
    | false =>
      rw [waitOffLoop] at h
      injection h with h'
      exact (congrArg Prod.fst h').symm
    | true => rw [waitOffLoop] at h; exact ih _ _ _ _ h

/-- If every power sample reads on, the wait-for-off loop never exits. -/
theorem waitOffLoop_all_on (samples : Nat → Bool) (hall : ∀ k, samples k = true) :
    ∀ fuel i, waitOffLoop samples fuel i true = none := by
  intro fuel
  induction fuel with
  | zero => intro i; rw [waitOffLoop]
  | succ fuel ih =>
    intro i
    rw [waitOffLoop]
    have hs : outerIterate samples i = (true, i + 1) := by
      simp [outerIterate, hall i]
    rw [hs]
    exact ih (i + 1)

/-- C9: `FlasherDeviceInteractor.waitInternalFlash` has no failure path in
its off-state confirmation: the wait-for-off loop exits only with
`dutOn = false` (and runs forever when the samples never read off — the
fuel parameter only truncates the model, never the loop), so the
`'Timed out while waiting for DUT to flash'` branch is unreachable and the
method can only complete by confirming off, powering off the DUT and
re-muxing the media to the host. -/
theorem waitInternalFlash_no_failure (samples : Nat → Bool) (fuel i : Nat) :
    (∀ d j, waitOffLoop samples fuel i true = some (d, j) → d = false)
    ∧ ((∀ k, samples k = true) → waitOffLoop samples fuel i true = none)
    ∧ (∀ r, waitInternalFlash samples fuel = some r →
        r = Except.ok [TBOp.powerOffDUT, TBOp.switchSdToHost 1000]) := by
  refine ⟨fun d j h => waitOffLoop_exit_false samples fuel i true d j h,
          fun hall => waitOffLoop_all_on samples hall fuel i, ?_⟩
  intro r h
  unfold waitInternalFlash at h
  split at h
  · exact Option.noConfusion h
  · rename_i i' hon
    split at h
    · exact Option.noConfusion h
    · rename_i s hoffl
      rcases s with ⟨d, j⟩
      have hd : d = false := waitOffLoop_exit_false samples fuel i' true d j hoffl
      subst hd
      rw [if_neg (by simp)] at h
      injection h with h'
      exact h'.symm

/-- C9 (witness): with all samples on the loop never exits; with the DUT
on once and then off, the method completes on the success branch. -/
theorem waitInternalFlash_no_failure_w :
    waitOffLoop (fun _ => true) 2 0 true = none
    ∧ waitInternalFlash (fun k => decide (k = 0)) 3 =
        some (Except.ok [TBOp.powerOffDUT, TBOp.switchSdToHost 1000]) :=
  ⟨(waitInternalFlash_no_failure (fun _ => true) 2 0).2.1 (fun _ => rfl), rfl⟩

/-! ## Intel NUC wait-loop lemmas -/

/-- The 6-minute timer has fired after sample `i` exactly when `72 ≤ i`. -/
theorem nucTimedOut_iff (i : Nat) : nucTimedOut i = true ↔ 72 ≤ i := by
  simp only [nucTimedOut, decide_eq_true_eq]
  omega

/-- The 6-minute timer has not fired after sample `i` exactly when `i < 72`. -/
theorem nucTimedOut_eq_false_iff (i : Nat) : nucTimedOut i = false ↔ i < 72 := by
  simp only [nucTimedOut, decide_eq_false_iff_not, not_le]
  omega

/-- Characterization of the Intel NUC current-draw wait loop with enough
fuel: the exit index is at most 72, every reading sampled strictly before
it was above the threshold, and an exit strictly before the timer fired can
only have happened on a reading at or below the threshold. -/
theorem nucLoop_spec (readings : Nat → ℚ) :
    ∀ fuel i, 72 < i + fuel → i ≤ 72 →
      i ≤ nucLoop readings fuel i ∧ nucLoop readings fuel i ≤ 72
      ∧ (∀ k, i ≤ k → k < nucLoop readings fuel i → 1 / 10 < readings k)
      ∧ (nucLoop readings fuel i < 72 →
          readings (nucLoop readings fuel i) ≤ 1 / 10) := by
  intro fuel
  induction fuel with
  | zero => intro i h1 h2; omega
  | succ fuel ih =>
    intro i h1 h2
    rw [nucLoop]
    by_cases hc : 1 / 10 < readings i ∧ nucTimedOut i = false
    · rw [if_pos hc]
      have hi72 : i < 72 := (nucTimedOut_eq_false_iff i).mp hc.2
      have spec := ih (i + 1) (by omega) (by omega)
      refine ⟨by omega, spec.2.1, ?_, spec.2.2.2⟩
      intro k hk1 hk2
      rcases Nat.eq_or_lt_of_le hk1 with he | hl
      · rw [← he]; exact hc.1
      · exact spec.2.2.1 k hl hk2
    · rw [if_neg hc]
      refine ⟨Nat.le_refl i, h2, ?_, ?_⟩
      · intro k hk1 hk2; omega
      · intro hi72
        by_contra hr
        push_neg at hr
        exact hc ⟨hr, (nucTimedOut_eq_false_iff i).mpr hi72⟩

/-- `IntelNuc.powerOn` with its let-binding zeta-reduced. -/
theorem intelNucPowerOn_eq (readings : Nat → ℚ) :
    intelNucPowerOn readings =
      if nucTimedOut (nucLoop readings 73 0) then
        Except.error "Timed out while waiting for DUT to flash"
      else
        Except.ok (nucPreOps ++ nucPostOps) := rfl

/-- C3 (counterexample): with current readings of 0.5 A for the first 72
samples and 0.05 A from then on, the wait loop of `IntelNuc.powerOn` exits
holding sample 72 — a sampled current of `1/20 ≤ 0.1 A` — yet the method
raises the flash-timeout error, because the 6-minute timer (which fires
during the 72nd five-second delay, having been registered first) is checked
by the post-loop `if (timedOut === 1)` regardless of the final reading. -/
theorem intelNuc_drop_at_timer_cex :
    nucLoop (fun k => if k < 72 then (1 : ℚ) / 2 else 1 / 20) 73 0 = 72
    ∧ (fun k => if k < 72 then (1 : ℚ) / 2 else 1 / 20) 72 ≤ 1 / 10
    ∧ intelNucPowerOn (fun k => if k < 72 then (1 : ℚ) / 2 else 1 / 20) =
        Except.error "Timed out while waiting for DUT to flash" := by
  have spec := nucLoop_spec (fun k => if k < 72 then (1 : ℚ) / 2 else 1 / 20)
    73 0 (by omega) (by omega)
  have hle := spec.2.1
  have hj : nucLoop (fun k => if k < 72 then (1 : ℚ) / 2 else 1 / 20) 73 0 = 72 := by
    by_contra hne
    have hlt : nucLoop (fun k => if k < 72 then (1 : ℚ) / 2 else 1 / 20) 73 0 < 72 := by
      omega
    have hdrop := spec.2.2.2 hlt
    simp only [hlt, if_true] at hdrop
    norm_num at hdrop
  refine ⟨hj, by norm_num, ?_⟩
  rw [intelNucPowerOn_eq, hj]
  rw [if_pos (by decide)]

/-- C3 (amended): `IntelNuc.powerOn` raises the flash-timeout error iff
every one of the 72 samples taken strictly before the 6-minute timer fires
(the initial sample plus 71 in-loop samples) reads above 0.1 A, and
completes normally — powering off the DUT, muxing the media back to the
host, and powering the DUT back on — iff some sampled current within that
window is at most 0.1 A.  A current that first drops to at most 0.1 A only
at or after the sample coinciding with the timer still raises the error
(see the counterexample), so "the instant a sampled current drops" holds
only strictly inside the 6-minute window. -/
theorem intelNuc_completion_iff (readings : Nat → ℚ) :
    (intelNucPowerOn readings =
        Except.error "Timed out while waiting for DUT to flash"
      ↔ ∀ k, k < 72 → 1 / 10 < readings k)
    ∧ ((∃ k, k < 72 ∧ readings k ≤ 1 / 10) →
        intelNucPowerOn readings = Except.ok (nucPreOps ++ nucPostOps)) := by
  have spec := nucLoop_spec readings 73 0 (by omega) (by omega)
  rw [intelNucPowerOn_eq]
  by_cases ht : nucTimedOut (nucLoop readings 73 0) = true
  · rw [if_pos ht]
    have h72 := (nucTimedOut_iff _).mp ht
    have hle := spec.2.1
    have hj : nucLoop readings 73 0 = 72 := by omega
    constructor
    · constructor
      · intro _ k hk
        exact spec.2.2.1 k (by omega) (by omega)
      · intro _; rfl
    · rintro ⟨k, hk, hr⟩
      exfalso
      exact absurd (spec.2.2.1 k (by omega) (by omega)) (not_lt.mpr hr)
  · rw [if_neg ht]
    have htf : nucTimedOut (nucLoop readings 73 0) = false := by
      revert ht
      cases nucTimedOut (nucLoop readings 73 0) <;> simp
    have hlt := (nucTimedOut_eq_false_iff _).mp htf
    constructor
    · constructor
      · intro h; exact Except.noConfusion h
      · intro hall
        exfalso
        exact absurd (hall _ hlt) (not_lt.mpr (spec.2.2.2 hlt))
    · intro _; rfl

/-- C3 (witness): with the current at 0.05 A from the start, the method
completes normally. -/
theorem intelNuc_completion_iff_w :
    intelNucPowerOn (fun _ => 1 / 20) = Except.ok (nucPreOps ++ nucPostOps) :=
  (intelNuc_completion_iff (fun _ => 1 / 20)).2 ⟨0, by omega, by norm_num⟩

/-! ## BalenaFin retry-loop lemmas -/

/-- A drive matched by the bounded re-attach wait occurred before the
5-minute timeout. -/
theorem awaitReattach_time (events : List AttachEvent) (e : AttachEvent)
    (h : awaitReattach events = some e) : e.time < 300000 := by
  have hp := List.find?_some h
  simp only [decide_eq_true_eq] at hp
  exact hp.1

/-- The retry loop enters at most `remaining` further attempts. -/
theorem finFlashLoop_fst_le (events : Nat → List AttachEvent) :
    ∀ remaining tries, (finFlashLoop events remaining tries).1 ≤ tries + remaining := by
  intro remaining
  induction remaining with
  | zero => intro tries; simp [finFlashLoop]
  | succ remaining ih =>
    intro tries
    rw [finFlashLoop]
    cases h : awaitReattach (events tries) with
    | some e =>
      show tries + 1 ≤ tries + (remaining + 1)
      omega
    | none =>
      show (finFlashLoop events remaining (tries + 1)).1 ≤ tries + (remaining + 1)
      have := ih (tries + 1)
      omega

/-- C4: the compute-module (`BalenaFin.flash`) retry loop performs at most
3 attempts; within each attempt the block-device re-attach wait only
matches events strictly before the 5-minute (300000 ms) timeout; a timeout
(`awaitReattach = none`) at one attempt just advances the counter and
starts the next attempt; and `flash` returns normally (with the attempt
count bounded by 3) rather than raising an error. -/
theorem finFlash_retry_bounds (events : Nat → List AttachEvent) :
    (finFlashLoop events 3 0).1 ≤ 3
    ∧ (∀ t e, awaitReattach (events t) = some e → e.time < 300000)
    ∧ (∀ remaining t, awaitReattach (events t) = none →
        finFlashLoop events (remaining + 1) t = finFlashLoop events remaining (t + 1))
    ∧ (∃ s, finFlash events = Except.ok s ∧ s.attempts ≤ 3) := by
  have h1 : (finFlashLoop events 3 0).1 ≤ 3 := finFlashLoop_fst_le events 3 0
  refine ⟨h1, fun t e h => awaitReattach_time (events t) e h, ?_, ⟨_, rfl, h1⟩⟩
  intro remaining t h
  rw [finFlashLoop, h]

/-- C4 (witness): at concrete per-attempt event lists where attempt 0 sees
no event (its wait times out, and the loop proceeds to attempt 1) and
attempt 1 sees a matching block device at 1000 ms. -/
theorem finFlash_retry_bounds_w :
    1000 < 300000
    ∧ finFlashLoop (fun t => if t = 1 then [⟨1000, true, "Compute Module"⟩] else []) 3 0
      = finFlashLoop (fun t => if t = 1 then [⟨1000, true, "Compute Module"⟩] else []) 2 1 :=
  ⟨(finFlash_retry_bounds (fun t => if t = 1 then [⟨1000, true, "Compute Module"⟩] else [])).2.1
      1 ⟨1000, true, "Compute Module"⟩ rfl,
   (finFlash_retry_bounds (fun t => if t = 1 then [⟨1000, true, "Compute Module"⟩] else [])).2.2.1
      2 0 rfl⟩

/-- C5: whenever the `BalenaFin.flash` retry loop ends — on a successful
attempt or after all 3 attempts exhausted without a matching block
device — `flash` unconditionally disables USB power and powers off the
DUT, then returns normally; in particular, with no attach events at all
(`fun _ => []`), all 3 attempts run, nothing is flashed, and the call still
returns `Except.ok`. -/
theorem finFlash_unconditional_cleanup :
    (∀ events, ∃ s, finFlash events = Except.ok s
        ∧ s.usbOff = true ∧ s.poweredOff = true)
    ∧ finFlash (fun _ => []) =
        Except.ok { attempts := 3, flashed := false, usbOff := true, poweredOff := true } :=
  ⟨fun _ => ⟨_, rfl, rfl, rfl⟩, rfl⟩

/-! ## Jetson TX2 pre-flash wait lemmas -/

/-- Starting from any counter value at most 10, the TX2 pre-flash loop
always exits normally (the throw guard `retries === 10` never fires, the
counter having already been decremented below 10) and samples at most
`retries - 1` further readings. -/
theorem tx2WaitOff_ok (samples : Nat → Bool) :
    ∀ retries, retries ≤ 10 → ∀ i d, ∃ n,
      tx2WaitOff samples retries i d = Except.ok n ∧ n ≤ i + (retries - 1) := by
  intro retries
  induction retries with
  | zero => intro _ i d; exact ⟨i, rfl, by omega⟩
  | succ retries ih =>
    intro hle i d
    rw [tx2WaitOff]
    by_cases hc : d = true ∧ retries ≠ 0
    · rw [if_pos hc]
      rw [if_neg (by omega)]
      obtain ⟨n, hn, hb⟩ := ih (by omega) (i + 1) (samples i)
      obtain ⟨hc1, hc2⟩ := hc
      exact ⟨n, hn, by omega⟩
    · rw [if_neg hc]
      exact ⟨i, rfl, by omega⟩

/-- C10: `JetsonTX2.waitInternalFlash`'s pre-flash power-off wait never
raises `'Failed to power off the TX2 before flashing'`: for every sample
stream it returns normally with at most 9 ten-second rechecks (`n - 1 ≤ 9`
samples beyond the initial one) and then proceeds to boot the flasher
image; with the DUT never reading off, it gives up after exactly 9
rechecks (`Except.ok 10`) and proceeds anyway. -/
theorem tx2PreFlashWait_no_throw (samples : Nat → Bool) :
    (∃ n, tx2PreFlashWait samples = Except.ok n ∧ n ≤ 10)
    ∧ tx2PreFlashWait (fun _ => true) = Except.ok 10 := by
  refine ⟨?_, rfl⟩
  obtain ⟨n, hn, hb⟩ := tx2WaitOff_ok samples 10 (by omega) 1 (samples 0)
  exact ⟨n, hn, by omega⟩
